import Mathlib

/-!
Verification of the build-orchestration entry point `build/all.py`.

The script defines `main(_)` which runs three external build stages in
order and propagates the first non-zero status code:

  code = gendeps.genDeps([])   -- stage 1
  if code != 0: return code
  code = check.main([])        -- stage 2
  if code != 0: return code
  return build.main(['--name', 'compiled', '+@complete'])  -- stage 3

We model the three collaborators as an environment of opaque functions
from an argument list to an integer status code, and instrument `main`
so that, besides the returned status code, it also yields the ordered
trace of collaborator calls made during the run (which stage, with which
arguments, and what it returned).  Python integers are unbounded, so
status codes are modelled as `Int`.
-/

namespace BuildAll

/-- Identifies one of the three external collaborators invoked by the
pipeline runner. -/
inductive Stage where
  | gendeps
  | check
  | build
deriving DecidableEq, Repr

/-- One collaborator invocation observed during a run: the stage that was
called, the argument list it was called with, and the status code it
returned. -/
structure Call where
  stage : Stage
  args : List String
  ret : Int
deriving DecidableEq, Repr

/-- The environment of external collaborators: `gendeps.genDeps`,
`check.main` and `build.main`, each a function from an argument list to
an integer status code. -/
structure Env where
  genDeps : List String → Int
  checkMain : List String → Int
  buildMain : List String → Int

/-- The literal argument list passed to the builder stage in the source:
`['--name', 'compiled', '+@complete']`. -/
def buildStageArgs : List String := ["--name", "compiled", "+@complete"]

/-- Embedding of `main(_)` from `build/all.py`.  The incoming argument
list `_args` is ignored by the source.  Returns the status code together
with the ordered trace of collaborator calls made during the run. -/
def main (env : Env) (_args : List String) : Int × List Call :=
  let c1 := env.genDeps []
  if c1 ≠ 0 then
    (c1, [⟨Stage.gendeps, [], c1⟩])
  else
    let c2 := env.checkMain []
    if c2 ≠ 0 then
      (c2, [⟨Stage.gendeps, [], c1⟩, ⟨Stage.check, [], c2⟩])
    else
      let c3 := env.buildMain buildStageArgs
      (c3, [⟨Stage.gendeps, [], c1⟩, ⟨Stage.check, [], c2⟩,
            ⟨Stage.build, buildStageArgs, c3⟩])

/-- Rank of a stage in the pipeline order. -/
def stageRank : Stage → Nat
  | Stage.gendeps => 0
  | Stage.check => 1
  | Stage.build => 2

lemma main_eq_fail1 (env : Env) (a : List String) (h : env.genDeps [] ≠ 0) :
    main env a = (env.genDeps [], [⟨Stage.gendeps, [], env.genDeps []⟩]) := by
  simp [main, h]

lemma main_eq_fail2 (env : Env) (a : List String) (h1 : env.genDeps [] = 0)
    (h2 : env.checkMain [] ≠ 0) :
    main env a = (env.checkMain [],
      [⟨Stage.gendeps, [], env.genDeps []⟩, ⟨Stage.check, [], env.checkMain []⟩]) := by
  simp [main, h1, h2]

lemma main_eq_ok (env : Env) (a : List String) (h1 : env.genDeps [] = 0)
    (h2 : env.checkMain [] = 0) :
    main env a = (env.buildMain buildStageArgs,
      [⟨Stage.gendeps, [], env.genDeps []⟩, ⟨Stage.check, [], env.checkMain []⟩,
       ⟨Stage.build, buildStageArgs, env.buildMain buildStageArgs⟩]) := by
  simp [main, h1, h2]

/-- A concrete environment where stage 1 fails with code 7. -/
def envFail1 : Env := ⟨fun _ => 7, fun _ => 0, fun _ => 0⟩

/-- A concrete environment where stage 1 succeeds and stage 2 fails with
code 2. -/
def envFail2 : Env := ⟨fun _ => 0, fun _ => 2, fun _ => 0⟩

/-- A concrete environment where all three stages succeed. -/
def envOk : Env := ⟨fun _ => 0, fun _ => 0, fun _ => 0⟩

/-- A concrete environment where stages 1 and 2 succeed and the builder
returns 5. -/
def envBuild5 : Env := ⟨fun _ => 0, fun _ => 0, fun _ => 5⟩

/-- C1: for every status code c1 with c1 ≠ 0 returned by the
dependency-generation collaborator (gendeps.genDeps), main returns
exactly c1, and neither the checker (check.main) nor the builder
(build.main) is invoked in that run. -/
theorem C1_gendeps_failure_short_circuits (env : Env) (a : List String)
    (h : env.genDeps [] ≠ 0) :
    (main env a).1 = env.genDeps [] ∧
      ∀ c ∈ (main env a).2, c.stage ≠ Stage.check ∧ c.stage ≠ Stage.build := by
  rw [main_eq_fail1 env a h]
  simp

/-- Witness for C1 at the concrete environment where stage 1 returns 7. -/
theorem C1_witness :
    (main envFail1 []).1 = envFail1.genDeps [] ∧
      ∀ c ∈ (main envFail1 []).2, c.stage ≠ Stage.check ∧ c.stage ≠ Stage.build :=
  C1_gendeps_failure_short_circuits envFail1 [] (by decide)

/-- C2: for every pair of status codes with c1 = 0 returned by
gendeps.genDeps and c2 ≠ 0 returned by check.main, main returns exactly
c2, and the builder (build.main) is never invoked in that run. -/
theorem C2_check_failure_skips_build (env : Env) (a : List String)
    (h1 : env.genDeps [] = 0) (h2 : env.checkMain [] ≠ 0) :
    (main env a).1 = env.checkMain [] ∧
      ∀ c ∈ (main env a).2, c.stage ≠ Stage.build := by
  rw [main_eq_fail2 env a h1 h2]
  simp

/-- Witness for C2 at the concrete environment where stage 1 returns 0
and stage 2 returns 2. -/
theorem C2_witness :
    (main envFail2 []).1 = envFail2.checkMain [] ∧
      ∀ c ∈ (main envFail2 []).2, c.stage ≠ Stage.build :=
  C2_check_failure_skips_build envFail2 [] (by decide) (by decide)

/-- C3: for every run in which gendeps.genDeps returns 0 and check.main
returns 0, the builder build.main is invoked and main returns exactly
the builder status code, for every integer builder code including 0. -/
theorem C3_build_result_surfaced (env : Env) (a : List String)
    (h1 : env.genDeps [] = 0) (h2 : env.checkMain [] = 0) :
    (∃ c ∈ (main env a).2, c.stage = Stage.build) ∧
      (main env a).1 = env.buildMain buildStageArgs := by
  rw [main_eq_ok env a h1 h2]
  exact ⟨⟨⟨Stage.build, buildStageArgs, env.buildMain buildStageArgs⟩,
    by simp, rfl⟩, rfl⟩

/-- Witness for C3 at the concrete environment where stages 1 and 2
return 0 and the builder returns 5. -/
theorem C3_witness :
    (∃ c ∈ (main envBuild5 []).2, c.stage = Stage.build) ∧
      (main envBuild5 []).1 = envBuild5.buildMain buildStageArgs :=
  C3_build_result_surfaced envBuild5 [] (by decide) (by decide)

/-- C4: main returns 0 exactly when every collaborator call made in the
run returned 0, and a non-zero result equals the code of the first
failing stage (stage 1 or 2) or the build stage code. -/
theorem C4_zero_iff_all_calls_zero (env : Env) (a : List String) :
    ((main env a).1 = 0 ↔ ∀ c ∈ (main env a).2, c.ret = 0) ∧
    ((main env a).1 ≠ 0 →
      (env.genDeps [] ≠ 0 ∧ (main env a).1 = env.genDeps []) ∨
      (env.genDeps [] = 0 ∧ env.checkMain [] ≠ 0 ∧
        (main env a).1 = env.checkMain []) ∨
      (env.genDeps [] = 0 ∧ env.checkMain [] = 0 ∧
        (main env a).1 = env.buildMain buildStageArgs)) := by
  by_cases h1 : env.genDeps [] = 0
  · by_cases h2 : env.checkMain [] = 0
    · rw [main_eq_ok env a h1 h2]
      constructor
      · simp [h1, h2]
      · intro hne
        exact Or.inr (Or.inr ⟨h1, h2, rfl⟩)
    · rw [main_eq_fail2 env a h1 h2]
      constructor
      · simp [h1, h2]
      · intro hne
        exact Or.inr (Or.inl ⟨h1, h2, rfl⟩)
  · rw [main_eq_fail1 env a h1]
    constructor
    · simp [h1]
    · intro hne
      exact Or.inl ⟨h1, rfl⟩

/-- Witness for C4 at the concrete environment where stage 2 fails with
code 2. -/
theorem C4_witness :
    ((main envFail2 []).1 = 0 ↔ ∀ c ∈ (main envFail2 []).2, c.ret = 0) ∧
    ((main envFail2 []).1 ≠ 0 →
      (envFail2.genDeps [] ≠ 0 ∧ (main envFail2 []).1 = envFail2.genDeps []) ∨
      (envFail2.genDeps [] = 0 ∧ envFail2.checkMain [] ≠ 0 ∧
        (main envFail2 []).1 = envFail2.checkMain []) ∨
      (envFail2.genDeps [] = 0 ∧ envFail2.checkMain [] = 0 ∧
        (main envFail2 []).1 = envFail2.buildMain buildStageArgs)) :=
  C4_zero_iff_all_calls_zero envFail2 []

/-- C5: whenever the builder stage is invoked by main, it is invoked
with exactly the argument sequence ["--name", "compiled", "+@complete"],
in that order, in every run. -/
theorem C5_build_args_literal (env : Env) (a : List String) :
    ∀ c ∈ (main env a).2, c.stage = Stage.build →
      c.args = ["--name", "compiled", "+@complete"] := by
  intro c hc hstage
  by_cases h1 : env.genDeps [] = 0
  · by_cases h2 : env.checkMain [] = 0
    · rw [main_eq_ok env a h1 h2] at hc
      simp at hc
      rcases hc with h | h | h
      · simp [h] at hstage
      · simp [h] at hstage
      · simp [h, buildStageArgs]
    · rw [main_eq_fail2 env a h1 h2] at hc
      simp at hc
      rcases hc with h | h <;> simp [h] at hstage
  · rw [main_eq_fail1 env a h1] at hc
    simp at hc
    simp [hc] at hstage

/-- Witness for C5 at the concrete all-success environment, where the
builder call appears in the trace. -/
theorem C5_witness :
    (⟨Stage.build, buildStageArgs, 0⟩ : Call) ∈ (main envOk []).2 ∧
      (Call.mk Stage.build buildStageArgs 0).args =
        ["--name", "compiled", "+@complete"] :=
  ⟨by decide,
    C5_build_args_literal envOk [] ⟨Stage.build, buildStageArgs, 0⟩
      (by decide) rfl⟩

/-- C6: whenever the dependency-generation stage (gendeps.genDeps) or
the checker stage (check.main) is invoked by main, it is invoked with an
empty argument list, in every run. -/
theorem C6_gendeps_check_args_empty (env : Env) (a : List String) :
    ∀ c ∈ (main env a).2,
      (c.stage = Stage.gendeps ∨ c.stage = Stage.check) → c.args = [] := by
  intro c hc _hstage
  by_cases h1 : env.genDeps [] = 0
  · by_cases h2 : env.checkMain [] = 0
    · rw [main_eq_ok env a h1 h2] at hc
      simp at hc
      rcases hc with h | h | h
      · simp [h]
      · simp [h]
      · simp [h, buildStageArgs] at _hstage
    · rw [main_eq_fail2 env a h1 h2] at hc
      simp at hc
      rcases hc with h | h <;> simp [h]
  · rw [main_eq_fail1 env a h1] at hc
    simp at hc
    simp [hc]

/-- Witness for C6 at the concrete all-success environment, applied to
the gendeps call in the trace. -/
theorem C6_witness :
    (⟨Stage.gendeps, [], 0⟩ : Call) ∈ (main envOk []).2 ∧
      (Call.mk Stage.gendeps [] 0).args = [] :=
  ⟨by decide,
    C6_gendeps_check_args_empty envOk [] ⟨Stage.gendeps, [], 0⟩
      (by decide) (Or.inl rfl)⟩

/-- C7: in every run the stage invocations are strictly ordered:
dependency generation precedes any checker call, which precedes any
builder call; no later stage ever runs before an earlier one. -/
theorem C7_calls_strictly_ordered (env : Env) (a : List String) :
    List.Pairwise (fun c d => stageRank c.stage < stageRank d.stage)
      (main env a).2 := by
  by_cases h1 : env.genDeps [] = 0
  · by_cases h2 : env.checkMain [] = 0
    · rw [main_eq_ok env a h1 h2]
      simp [stageRank]
    · rw [main_eq_fail2 env a h1 h2]
      simp [stageRank]
  · rw [main_eq_fail1 env a h1]
    simp

/-- C8: no stage is ever retried: each of the three collaborators is
invoked at most once per run, and a failure from stage 1 or 2 is
surfaced as the result with no recovery attempt. -/
theorem C8_no_retries (env : Env) (a : List String) :
    (((main env a).2.map Call.stage).count Stage.gendeps ≤ 1 ∧
     ((main env a).2.map Call.stage).count Stage.check ≤ 1 ∧
     ((main env a).2.map Call.stage).count Stage.build ≤ 1) ∧
    (env.genDeps [] ≠ 0 → (main env a).1 = env.genDeps []) ∧
    (env.genDeps [] = 0 → env.checkMain [] ≠ 0 →
      (main env a).1 = env.checkMain []) := by
  by_cases h1 : env.genDeps [] = 0
  · by_cases h2 : env.checkMain [] = 0
    · rw [main_eq_ok env a h1 h2]
      refine ⟨by simp [List.count_cons], ?_, ?_⟩
      · intro h
        exact absurd h1 h
      · intro _ h
        exact absurd h2 h
    · rw [main_eq_fail2 env a h1 h2]
      refine ⟨by simp [List.count_cons], ?_, ?_⟩
      · intro h
        exact absurd h1 h
      · intro _ _
        rfl
  · rw [main_eq_fail1 env a h1]
    refine ⟨by simp [List.count_cons], fun _ => rfl, ?_⟩
    intro h
    exact absurd h h1

/-- Witness for C8 at the concrete environment where stage 2 fails with
code 2. -/
theorem C8_witness :
    (((main envFail2 []).2.map Call.stage).count Stage.gendeps ≤ 1 ∧
     ((main envFail2 []).2.map Call.stage).count Stage.check ≤ 1 ∧
     ((main envFail2 []).2.map Call.stage).count Stage.build ≤ 1) ∧
    (envFail2.genDeps [] ≠ 0 → (main envFail2 []).1 = envFail2.genDeps []) ∧
    (envFail2.genDeps [] = 0 → envFail2.checkMain [] ≠ 0 →
      (main envFail2 []).1 = envFail2.checkMain []) :=
  C8_no_retries envFail2 []

/-- C9: the behaviour of main is independent of its own argument list:
for any two invocation argument lists, with the same collaborators, main
returns the same result and makes the same calls with the same
arguments. -/
theorem C9_args_ignored (env : Env) (a b : List String) :
    main env a = main env b := rfl

/-- C10: in every run, main invokes gendeps.genDeps exactly once,
unconditionally and as its first action, and the value main returns is
always the return value of one of the collaborator calls of that run,
forwarded without modification. -/
theorem C10_gendeps_first_and_result_forwarded (env : Env) (a : List String) :
    (main env a).2.head? = some ⟨Stage.gendeps, [], env.genDeps []⟩ ∧
    ((main env a).2.map Call.stage).count Stage.gendeps = 1 ∧
    ∃ c ∈ (main env a).2, (main env a).1 = c.ret := by
  by_cases h1 : env.genDeps [] = 0
  · by_cases h2 : env.checkMain [] = 0
    · rw [main_eq_ok env a h1 h2]
      refine ⟨rfl, by simp [List.count_cons], ?_⟩
      exact ⟨⟨Stage.build, buildStageArgs, env.buildMain buildStageArgs⟩,
        by simp, rfl⟩
    · rw [main_eq_fail2 env a h1 h2]
      refine ⟨rfl, by simp [List.count_cons], ?_⟩
      exact ⟨⟨Stage.check, [], env.checkMain []⟩, by simp, rfl⟩
  · rw [main_eq_fail1 env a h1]
    refine ⟨rfl, by simp [List.count_cons], ?_⟩
    exact ⟨⟨Stage.gendeps, [], env.genDeps []⟩, by simp, rfl⟩

end BuildAll
